import Mathlib

/-!
Verification development for the openclaw-3cx repository.

The repository has two Python source files:
* `src/claude-api-server/openclaw-http-bridge.py` — a Flask HTTP bridge that
  forwards conversation text to an external agent binary and reshapes its
  output (`extract_response_text`, `process_conversation`).
* `src/voice-app/lib/moss-tts.py` — a CLI speech-synthesis client (`main`).

The development shallowly embeds those functions.  Python values that come out
of `json.loads` are modelled by the inductive type `Json`; `json.loads` itself
(Python standard library) is modelled as an `Option Json` parameter, `none`
standing for a `json.JSONDecodeError`.  Python's `str`/`repr` on such values is
modelled by `pyStr`/`pyRepr` (ASCII escaping rules; non-ASCII characters are
kept as-is).  The regex `r"'text':\s*'([^']+)'"` used by the bridge is modelled
by `reSearchText` with the ASCII part of `\s`.  Exceptions that the embedded
code can raise are modelled with `Except`/`PyErr`.
-/

/-- A Python value produced by `json.loads`: `None`, `bool`, `int`, `str`,
`list`, `dict`.  JSON numbers are modelled as integers (no floats appear in the
claims).  An `obj` holds the dict items in insertion order; `json.loads` never
produces duplicate keys, and all operations below read the first binding. -/
inductive Json where
  | null : Json
  | bool (b : Bool) : Json
  | num (n : Int) : Json
  | str (s : String) : Json
  | arr (l : List Json) : Json
  | obj (items : List (String × Json)) : Json

/-- Exceptions the embedded code can raise. -/
inductive PyErr where
  | typeError : PyErr
  | attributeError : PyErr
  | keyError : PyErr
deriving DecidableEq

/-- Python dict lookup `d[k]` as used on the parsed JSON objects (returns the
first binding; parsed dicts have unique keys). -/
def lookupD (items : List (String × Json)) (k : String) : Option Json :=
  match items with
  | [] => none
  | (k₁, v) :: rest => if k₁ = k then some v else lookupD rest k

/-- Lowercase hex digit, for Python string-repr escapes. -/
def pyHexDigit (n : Nat) : Char := Nat.digitChar n

/-- Python `repr` escaping of a single character given the chosen quote `q`:
backslash and the quote are escaped, newline / carriage return / tab become
`\n` / `\r` / `\t`, other ASCII control characters become `\xHH`.  Non-ASCII
characters are kept as-is (Python also escapes non-printable ones; none occur
in the claims). -/
def pyEscChar (q : Char) (c : Char) : List Char :=
  if c = '\\' then ['\\', '\\']
  else if c = q then ['\\', q]
  else if c = '\n' then ['\\', 'n']
  else if c = '\r' then ['\\', 'r']
  else if c = '\t' then ['\\', 't']
  else if c.toNat < 32 || c.toNat == 127 then
    ['\\', 'x', pyHexDigit (c.toNat / 16), pyHexDigit (c.toNat % 16)]
  else [c]

/-- Apply `pyEscChar` to every character. -/
def pyEscAll (q : Char) : List Char → List Char
  | [] => []
  | c :: rest => pyEscChar q c ++ pyEscAll q rest

/-- Python `repr` of a `str`: single quotes, unless the string contains a
single quote and no double quote, in which case double quotes are used. -/
def pyReprString (s : String) : String :=
  let q : Char :=
    if s.toList.any (fun c => c == '\'') && !(s.toList.any (fun c => c == '"'))
    then '"' else '\''
  String.mk (q :: (pyEscAll q s.toList ++ [q]))

mutual

/-- Python `repr` of a parsed JSON value: `None`/`True`/`False`, decimal
integers, quoted strings, `[...]` lists and `{...}` dicts with `", "`
separators, exactly as `repr` prints the values `json.loads` produces. -/
def pyRepr : Json → String
  | Json.null => "None"
  | Json.bool true => "True"
  | Json.bool false => "False"
  | Json.num n => toString n
  | Json.str s => pyReprString s
  | Json.arr l => "[" ++ pyReprArr l ++ "]"
  | Json.obj items => "\x7b" ++ pyReprObj items ++ "\x7d"

/-- Comma-separated `repr`s of the elements of a list. -/
def pyReprArr : List Json → String
  | [] => ""
  | [x] => pyRepr x
  | x :: y :: rest => pyRepr x ++ ", " ++ pyReprArr (y :: rest)

/-- Comma-separated `key: value` `repr`s of the items of a dict. -/
def pyReprObj : List (String × Json) → String
  | [] => ""
  | [(k, v)] => pyReprString k ++ ": " ++ pyRepr v
  | (k, v) :: x :: rest => pyReprString k ++ ": " ++ pyRepr v ++ ", " ++ pyReprObj (x :: rest)

end

/-- Python `str` of a parsed JSON value: a string is returned as-is, anything
else is its `repr`. -/
def pyStr (j : Json) : String :=
  match j with
  | Json.str s => s
  | j => pyRepr j

/-- ASCII whitespace accepted by Python's `\s` and by `str.strip` (the claims
only involve ASCII text). -/
def pyWs (c : Char) : Bool :=
  c == ' ' || c == '\t' || c == '\n' || c == '\r' || c == '\x0b' || c == '\x0c'

/-- Python `str.strip()` restricted to ASCII whitespace. -/
def pyStrip (s : String) : String :=
  String.mk (((s.toList.dropWhile pyWs).reverse.dropWhile pyWs).reverse)

/-- Match the fixed leading characters of a pattern, returning the rest of the
input on success. -/
def dropPre (pat l : List Char) : Option (List Char) :=
  match pat, l with
  | [], rest => some rest
  | _ :: _, [] => none
  | p :: ps, c :: cs => if p == c then dropPre ps cs else none

/-- The literal part of the bridge's regex `r"'text':\s*'([^']+)'"`. -/
def textPat : List Char := ['\'', 't', 'e', 'x', 't', '\'', ':']

/-- Try the regex `'text':\s*'([^']+)'` anchored at the start of `l`, returning
the captured group.  Since `[^']+` excludes the closing quote, the greedy match
is the maximal run of non-quote characters, which must be non-empty and
followed by a quote. -/
def matchTextAt (l : List Char) : Option (List Char) :=
  match dropPre textPat l with
  | none => none
  | some rest =>
    match rest.dropWhile pyWs with
    | [] => none
    | q :: rest₂ =>
      if q == '\'' then
        let cap := rest₂.takeWhile (fun c => !(c == '\''))
        match rest₂.dropWhile (fun c => !(c == '\'')) with
        | '\'' :: _ => if cap.isEmpty then none else some cap
        | _ => none
      else none

/-- `re.search` of the bridge's regex: leftmost match wins. -/
def reSearchText : List Char → Option (List Char)
  | [] => none
  | c :: rest =>
    match matchTextAt (c :: rest) with
    | some cap => some cap
    | none => reSearchText rest

/-- Lines 25–28 of the bridge: the payloads rule.  `data["payloads"]` must be a
non-empty list whose first element is a dict with a `"text"` key; the raw value
of that key is returned (not stringified). -/
def payloadsRule (items : List (String × Json)) : Option Json :=
  match lookupD items "payloads" with
  | some (Json.arr (p :: _)) =>
    match p with
    | Json.obj pitems => lookupD pitems "text"
    | _ => none
  | _ => none

/-- Lines 31–33 of the bridge: walk the fixed key list, returning `str` of the
first present key's value. -/
def priorityRuleAux (items : List (String × Json)) : List String → Option String
  | [] => none
  | k :: ks =>
    match lookupD items k with
    | some v => some (pyStr v)
    | none => priorityRuleAux items ks

/-- The fixed key priority order of the bridge. -/
def priorityKeys : List String := ["response", "text", "message", "content", "speech"]

/-- Lines 31–33 of the bridge: the direct response/text field rule. -/
def priorityRule (items : List (String × Json)) : Option String :=
  priorityRuleAux items priorityKeys

/-- Lines 36–41 of the bridge: the nested response structure rule.  Note that
`resp["speech"]["plain"].get("speech", str(resp["speech"]))` raises
`AttributeError` when the `plain` value is not a dict. -/
def nestedRule (items : List (String × Json)) : Option (Except PyErr Json) :=
  match lookupD items "response" with
  | some (Json.obj ritems) =>
    match lookupD ritems "speech" with
    | some sp =>
      match sp with
      | Json.obj spItems =>
        match lookupD spItems "plain" with
        | some (Json.obj pItems) =>
          some (Except.ok ((lookupD pItems "speech").getD (Json.str (pyStr sp))))
        | some _ => some (Except.error PyErr.attributeError)
        | none => some (Except.ok (Json.str (pyStr sp)))
      | _ => some (Except.ok (Json.str (pyStr sp)))
    | none => none
  | _ => none

/-- Lines 47–54 of the bridge: stringify the parsed value, search it with the
regex, and fall back to the stringified value. -/
def strFallback (d : Json) : String :=
  let os := pyStr d
  match reSearchText os.toList with
  | some cap => String.mk cap
  | none => os

/-- Lines 17–62 of the bridge: `extract_response_text(output)`.  The result of
`json.loads(output)` is passed in as `loads` (`none` = `JSONDecodeError`).  The
Python function can return a non-`str` value (the payloads rule returns the raw
`text` value), hence the `Json` result; every `str` it returns appears as
`Json.str`.  The possible `AttributeError` of the nested rule appears as
`Except.error`. -/
def extract_response_text (loads : Option Json) (output : String) : Except PyErr Json :=
  match loads with
  | none =>
    match reSearchText output.toList with
    | some cap => Except.ok (Json.str (String.mk cap))
    | none => Except.ok (Json.str output)
  | some data =>
    match data with
    | Json.obj items =>
      match payloadsRule items with
      | some v => Except.ok v
      | none =>
        match priorityRule items with
        | some s => Except.ok (Json.str s)
        | none =>
          match nestedRule items with
          | some r => r
          | none => Except.ok (Json.str (strFallback data))
    | Json.str s => Except.ok (Json.str s)
    | d => Except.ok (Json.str (strFallback d))

/-- Projection of an extraction result to the contained string, when the result
is a successfully returned string. -/
def okStr : Except PyErr Json → Option String
  | Except.ok (Json.str s) => some s
  | _ => none

/-- Remove every binding of key `k` from a dict's item list; used to state
what extraction would do if a key were absent. -/
def eraseKey : List (String × Json) → String → List (String × Json)
  | [], _ => []
  | (k₁, v) :: rest, k =>
    if k₁ = k then eraseKey rest k else (k₁, v) :: eraseKey rest k

/-- Whether an extraction result is a success (no exception). -/
def isOkB : Except PyErr Json → Bool
  | Except.ok _ => true
  | Except.error _ => false

/-- Whether a Python value is a `str`. -/
def isStrB : Json → Bool
  | Json.str _ => true
  | _ => false

/-- The payloads rule applied to a `json.loads` result. -/
def payloadsOf : Option Json → Option Json
  | some (Json.obj items) => payloadsRule items
  | _ => none

/-- Python `str.replace` specialised to a two-character pattern `[a, b]`, as in
the bridge's `replace("**", "")` and `replace("\\n", "\n")`: scan left to
right; on a match emit the replacement and continue after the matched pair,
otherwise emit the character and continue at the next one. -/
def pyReplace2 (a b : Char) (rep : List Char) : List Char → List Char
  | [] => []
  | [c] => [c]
  | c :: d :: rest =>
    if c = a ∧ d = b then rep ++ pyReplace2 a b rep rest
    else c :: pyReplace2 a b rep (d :: rest)

/-- Line 100 of the bridge:
`response_text.replace("**", "").replace("\\n", "\n")` — strip the literal
`**` markers, then turn each literal backslash-`n` pair into a newline. -/
def postprocess (s : String) : String :=
  String.mk (pyReplace2 '\\' 'n' ['\n'] (pyReplace2 '*' '*' [] s.toList))

/-- Whether `pat` occurs at the start of `l`. -/
def isPre : List Char → List Char → Bool
  | [], _ => true
  | _ :: _, [] => false
  | p :: ps, c :: cs => p == c && isPre ps cs

/-- Whether `pat` occurs anywhere in `l` (Python's `pat in s` on strings). -/
def hasSub (pat : List Char) : List Char → Bool
  | [] => isPre pat []
  | c :: rest => isPre pat (c :: rest) || hasSub pat rest

/-- Python truthiness of a parsed JSON value (`not data` uses its negation). -/
def pyFalsy : Json → Bool
  | Json.null => true
  | Json.bool b => !b
  | Json.num n => n == 0
  | Json.str s => s.isEmpty
  | Json.arr l => l.isEmpty
  | Json.obj items => items.isEmpty

/-- Python `"text" in data` on a parsed JSON value: key membership for dicts,
element equality for lists, substring for strings, `TypeError` for
non-containers. -/
def pyContainsText : Json → Except PyErr Bool
  | Json.obj items => Except.ok (lookupD items "text").isSome
  | Json.arr l => Except.ok (l.any (fun x => isStrB x && pyStr x == "text"))
  | Json.str s => Except.ok (hasSub "text".toList s.toList)
  | _ => Except.error PyErr.typeError

/-- Python `data["text"]` on a parsed JSON value: dict indexing, `TypeError`
for strings/lists indexed by a string and for non-subscriptable values. -/
def pyIndexText : Json → Except PyErr Json
  | Json.obj items =>
    match lookupD items "text" with
    | some v => Except.ok v
    | none => Except.error PyErr.keyError
  | _ => Except.error PyErr.typeError

/-- Result of `subprocess.run` when the process completed before the timeout. -/
structure ProcResult where
  returncode : Int
  stdout : String
  stderr : String
deriving DecidableEq

/-- Outcome of the `subprocess.run` call: completion, or
`subprocess.TimeoutExpired`. -/
inductive RunOutcome where
  | completed (r : ProcResult) : RunOutcome
  | timedOut : RunOutcome
deriving DecidableEq

/-- The HTTP response produced by the conversation handler:
`missingText` = 400 `{"error": "Missing 'text' field"}`,
`success t` = 200 with `t` as the nested plain speech text,
`agentFailed d` = 500 `{"error": "OpenClaw failed", "details": d}`,
`agentTimeout` = 504 `{"error": "OpenClaw agent timeout"}`,
`internalError e` = 500 `{"error": str(e)}` from the outer `except`. -/
inductive HandlerResponse where
  | missingText : HandlerResponse
  | success (speech : String) : HandlerResponse
  | agentFailed (details : String) : HandlerResponse
  | agentTimeout : HandlerResponse
  | internalError (e : PyErr) : HandlerResponse
deriving DecidableEq

/-- Lines 64–123 of the bridge: the `/conversation/process` handler.
`data` is the result of `request.get_json()` (`none` = a request without a
JSON body).  `run` is the outcome of the `subprocess.run` call, and
`stdoutLoads` is the result of `json.loads` on the stripped stdout, both
supplied as parameters since they involve the external process.  The second
component of the result records whether an external process was spawned.
Raised `TypeError`s (`"text" not in data` on a non-container, `data["text"]`
on a non-dict, a non-string message handed to `subprocess.run`, `.replace` on
a non-string extraction result) are caught by the outer `except` and become
`internalError`. -/
def process_conversation (data : Option Json) (run : RunOutcome)
    (stdoutLoads : Option Json) : HandlerResponse × Bool :=
  match data with
  | none => (HandlerResponse.missingText, false)
  | some d =>
    if pyFalsy d then (HandlerResponse.missingText, false)
    else
      match pyContainsText d with
      | Except.error e => (HandlerResponse.internalError e, false)
      | Except.ok false => (HandlerResponse.missingText, false)
      | Except.ok true =>
        match pyIndexText d with
        | Except.error e => (HandlerResponse.internalError e, false)
        | Except.ok userMessage =>
          match userMessage with
          | Json.str _ =>
            match run with
            | RunOutcome.timedOut => (HandlerResponse.agentTimeout, true)
            | RunOutcome.completed r =>
              if r.returncode = 0 then
                match extract_response_text stdoutLoads (pyStrip r.stdout) with
                | Except.error e => (HandlerResponse.internalError e, true)
                | Except.ok v =>
                  match v with
                  | Json.str t => (HandlerResponse.success (postprocess t), true)
                  | _ => (HandlerResponse.internalError PyErr.attributeError, true)
              else (HandlerResponse.agentFailed r.stderr, true)
          | _ => (HandlerResponse.internalError PyErr.typeError, false)

/-- Line 15 of the bridge:
`os.environ.get("OPENCLAW_GATEWAY_TOKEN", "7a9b03…")` — the token handed to
the agent process, with its compiled-in fallback value.  `env` models
`os.environ.get` on the variable name. -/
def OPENCLAW_TOKEN (env : String → Option String) : String :=
  (env "OPENCLAW_GATEWAY_TOKEN").getD "7a9b03fb34c28205fe90a34f05098e72eecba41d8a81b6b7"

/-- The inputs of one run of the synthesis client `moss-tts.py`:
`argv` is `sys.argv` (script name included), `mossUrlEnv` the value of the
`MOSS_TTS_URL` environment variable, `gradioInstalled` whether importing
`gradio_client` succeeds, `predict` the outcome of `client.predict` (an
exception message, or the returned tuple as a list of strings — also standing
for any exception raised inside the `try` block), and `fileExists` the
filesystem's `os.path.exists`. -/
structure TtsWorld where
  argv : List String
  mossUrlEnv : Option String
  gradioInstalled : Bool
  predict : Except String (List String)
  fileExists : String → Bool

/-- Observable outcome of one run of the synthesis client: the exit code, the
lines printed to stdout and stderr, and the file copies performed
(source, destination). -/
structure TtsOutcome where
  exitCode : Nat
  stdoutLines : List String
  stderrLines : List String
  copies : List (String × String)

/-- Whether a reference-audio argument looks like an HTTP(S) URL
(lines 43 of the client). -/
def looksLikeUrl (s : String) : Bool :=
  isPre "http://".toList s.toList || isPre "https://".toList s.toList

/-- Lines 17–76 of `moss-tts.py`: the client `main`.  Argument parsing, the
`MOSS_TTS_URL` check, the import check, the reference-audio warning, the
audio-existence check guarding the copy, and the top-level `except` are all
modelled; `shutil.copy` is recorded in `copies`. -/
def moss_tts_main (w : TtsWorld) : TtsOutcome :=
  if w.argv.length < 3 then
    ⟨1, [], ["ERROR: Usage: moss-tts.py <text> <output_path> [reference_audio]"], []⟩
  else
    let output_path := w.argv.getD 2 ""
    let reference_audio := if w.argv.length > 3 then some (w.argv.getD 3 "") else none
    let moss_url := pyStrip (w.mossUrlEnv.getD "")
    if moss_url = "" then
      ⟨1, [], ["ERROR: MOSS_TTS_URL not set"], []⟩
    else if !w.gradioInstalled then
      ⟨1, [], ["ERROR: gradio_client not installed. Run: pip3 install gradio_client"], []⟩
    else
      let warnLines :=
        match reference_audio with
        | some ra =>
          if looksLikeUrl ra then []
          else if w.fileExists ra then []
          else ["WARN: reference audio not found: " ++ ra ++ ", proceeding without it"]
        | none => []
      match w.predict with
      | Except.error e => ⟨1, [], warnLines ++ ["ERROR: " ++ e], []⟩
      | Except.ok result =>
        match result with
        | [] => ⟨1, [], warnLines ++ ["ERROR: tuple index out of range"], []⟩
        | audio_path :: restR =>
          let status := restR.headD ""
          if audio_path == "" || !w.fileExists audio_path then
            ⟨1, [], warnLines ++ ["ERROR: MOSS TTS produced no audio. Status: " ++ status], []⟩
          else
            ⟨0, ["OK:" ++ output_path], warnLines, [(audio_path, output_path)]⟩

/-! ## Theorems -/

/-- Auxiliary: the key-priority walk over `pre ++ k :: post` returns `str` of
`k`'s value when every key of `pre` is absent and `k` is present. -/
theorem priorityRuleAux_append (items : List (String × Json)) (pre post : List String)
    (k : String) (v : Json)
    (hpre : ∀ k₁ ∈ pre, lookupD items k₁ = none)
    (hk : lookupD items k = some v) :
    priorityRuleAux items (pre ++ k :: post) = some (pyStr v) := by
  induction pre with
  | nil => simp [priorityRuleAux, hk]
  | cons p ps ih =>
    have hp : lookupD items p = none := hpre p (List.mem_cons_self _ _)
    simp only [List.cons_append, priorityRuleAux, hp]
    exact ih (fun k₁ hk₁ => hpre k₁ (List.mem_cons_of_mem _ hk₁))

/-- Auxiliary: if the key-priority rule found nothing, then `"response"` is
absent, so the nested response rule (which requires `"response"`) cannot fire
either — lines 36–41 of the bridge are unreachable. -/
theorem nestedRule_none_of_priorityRule_none (items : List (String × Json))
    (h : priorityRule items = none) : nestedRule items = none := by
  have hr : lookupD items "response" = none := by
    cases hl : lookupD items "response" with
    | some v =>
      exfalso
      have hcontra : priorityRule items = some (pyStr v) := by
        simp [priorityRule, priorityKeys, priorityRuleAux, hl]
      rw [hcontra] at h
      cases h
    | none => rfl
  unfold nestedRule
  rw [hr]

/-- C2: for every parsed JSON mapping with a `payloads` list whose first
element is a mapping with a `text` field, `extract_response_text` returns
exactly that field's value, whatever other top-level keys are present. -/
theorem c2_payloads_first (items pitems : List (String × Json)) (rest : List Json)
    (t : Json) (output : String)
    (hp : lookupD items "payloads" = some (Json.arr (Json.obj pitems :: rest)))
    (ht : lookupD pitems "text" = some t) :
    extract_response_text (some (Json.obj items)) output = Except.ok t := by
  simp [extract_response_text, payloadsRule, hp, ht]

/-- Witness for C2 at a concrete input with an extra top-level key. -/
theorem c2_payloads_first_witness :
    extract_response_text
      (some (Json.obj [("other", Json.num 1),
        ("payloads", Json.arr [Json.obj [("text", Json.str "hi")]])])) "out" =
      Except.ok (Json.str "hi") :=
  c2_payloads_first _ _ _ _ _ rfl rfl

/-- C3: for every parsed JSON mapping on which the payloads rule fails,
`extract_response_text` returns the value of the first present key in the
fixed order `response`, `text`, `message`, `content`, `speech`, coerced to a
string by Python `str`. -/
theorem c3_priority_order (items : List (String × Json)) (output : String)
    (pre post : List String) (k : String) (v : Json)
    (hsplit : pre ++ k :: post = priorityKeys)
    (hpre : ∀ k₁ ∈ pre, lookupD items k₁ = none)
    (hk : lookupD items k = some v)
    (hp : payloadsRule items = none) :
    extract_response_text (some (Json.obj items)) output =
      Except.ok (Json.str (pyStr v)) := by
  have hpr : priorityRule items = some (pyStr v) := by
    unfold priorityRule
    rw [← hsplit]
    exact priorityRuleAux_append items pre post k v hpre hk
  simp [extract_response_text, hp, hpr]

/-- Witness for C3: `text` beats the later `message` key and the integer value
is stringified. -/
theorem c3_priority_order_witness :
    extract_response_text
      (some (Json.obj [("message", Json.str "m"), ("text", Json.num 7)])) "out" =
      Except.ok (Json.str "7") :=
  c3_priority_order _ _ ["response"] ["message", "content", "speech"] "text" (Json.num 7)
    rfl (by intro k₁ hk₁; simp only [List.mem_singleton] at hk₁; subst hk₁; rfl) rfl rfl

/-- C1 counterexample: for the output that parses to
`{"response": {"speech": {"plain": {"speech": "hello"}}}}`, extraction does
NOT return `"hello"`: the key-priority rule catches `response` first. -/
theorem c1_counterexample :
    extract_response_text
      (some (Json.obj [("response",
        Json.obj [("speech", Json.obj [("plain", Json.obj [("speech", Json.str "hello")])])])]))
      "\x7b\"response\": \x7b\"speech\": \x7b\"plain\": \x7b\"speech\": \"hello\"\x7d\x7d\x7d\x7d" ≠
      Except.ok (Json.str "hello") :=
  fun h => absurd (congrArg okStr h) (by decide)

/-- C1 as amended: on that input the key-priority rule fires on `response` and
returns the Python `str` of the nested mapping; the nested-speech branch of
the cascade is dead code because the priority loop always returns first when
`response` is present. -/
theorem c1_amended :
    extract_response_text
      (some (Json.obj [("response",
        Json.obj [("speech", Json.obj [("plain", Json.obj [("speech", Json.str "hello")])])])]))
      "\x7b\"response\": \x7b\"speech\": \x7b\"plain\": \x7b\"speech\": \"hello\"\x7d\x7d\x7d\x7d" =
      Except.ok (Json.str "\x7b'speech': \x7b'plain': \x7b'speech': 'hello'\x7d\x7d\x7d") := rfl

/-- C8: with `OPENCLAW_GATEWAY_TOKEN` absent from the environment, the bridge
does not fail — it silently uses the compiled-in default token (line 15 of the
bridge), contradicting the mandated hard failure. -/
theorem c8_token_default :
    OPENCLAW_TOKEN (fun _ => none) = "7a9b03fb34c28205fe90a34f05098e72eecba41d8a81b6b7" := rfl

/-- C4 counterexample: extraction does not always return a string — when the
payloads rule fires on a non-string `text` value, that raw value is returned
(the caller's `.replace` would then raise). -/
theorem c4_counterexample :
    extract_response_text
      (some (Json.obj [("payloads", Json.arr [Json.obj [("text", Json.num 5)]])])) "out" =
      Except.ok (Json.num 5) ∧ isStrB (Json.num 5) = false :=
  ⟨rfl, rfl⟩

/-- C6 counterexample: a body that is the JSON number `5` is not a mapping,
yet the handler does not return the 400 missing-text response — the
`"text" not in data` test raises `TypeError`, caught as a 500. -/
theorem c6_counterexample :
    process_conversation (some (Json.num 5)) RunOutcome.timedOut none ≠
      (HandlerResponse.missingText, false) := by decide

/-- C7 counterexample: a request whose `text` field is the empty string is not
rejected — the external process is spawned. -/
theorem c7_counterexample :
    (process_conversation (some (Json.obj [("text", Json.str "")]))
        (RunOutcome.completed ⟨0, "", ""⟩) none).2 = true := by decide

/-- C10 counterexample: an unusable `payloads` entry is not equivalent to an
absent one — the stringify-fallback includes it in the stringified mapping. -/
theorem c10_counterexample :
    extract_response_text (some (Json.obj [("payloads", Json.str "x")])) "out" ≠
      extract_response_text (some (Json.obj [])) "out" :=
  fun h => absurd (congrArg okStr h) (by decide)

/-- C4 as amended: the extraction cascade never raises (in particular the one
raising statement, in the nested response rule, is unreachable); when the
input is not valid JSON and the quoted-text pattern does not match, the raw
input is returned unmodified; and the result is a string except that the
payloads rule returns the first payload's raw `text` value, which need not be
a string. -/
theorem c4_total_cascade (loads : Option Json) (output : String) :
    isOkB (extract_response_text loads output) = true ∧
    (loads = none → reSearchText output.toList = none →
      extract_response_text loads output = Except.ok (Json.str output)) ∧
    (∀ v, extract_response_text loads output = Except.ok v →
      isStrB v = true ∨ payloadsOf loads = some v) := by
  cases loads with
  | none =>
    refine ⟨?_, ?_, ?_⟩
    · unfold extract_response_text
      cases hs : reSearchText output.toList <;> rfl
    · intro _ hs
      have hs₁ : reSearchText output.data = none := hs
      simp [extract_response_text, hs₁]
    · intro v hv
      left
      unfold extract_response_text at hv
      cases hs : reSearchText output.toList <;> rw [hs] at hv <;>
        (simp only [Except.ok.injEq] at hv; subst hv; rfl)
  | some data =>
    cases data with
    | obj items =>
      cases hp : payloadsRule items with
      | some v₀ =>
        have he : extract_response_text (some (Json.obj items)) output = Except.ok v₀ := by
          simp only [extract_response_text, hp]
        refine ⟨by rw [he]; rfl, fun h => Option.noConfusion h, ?_⟩
        intro v hv
        rw [he] at hv
        simp only [Except.ok.injEq] at hv
        subst hv
        right
        simp [payloadsOf, hp]
      | none =>
        cases hq : priorityRule items with
        | some s =>
          have he : extract_response_text (some (Json.obj items)) output =
              Except.ok (Json.str s) := by
            simp only [extract_response_text, hp, hq]
          refine ⟨by rw [he]; rfl, fun h => Option.noConfusion h, ?_⟩
          intro v hv
          rw [he] at hv
          simp only [Except.ok.injEq] at hv
          subst hv
          exact Or.inl rfl
        | none =>
          have hn := nestedRule_none_of_priorityRule_none items hq
          have he : extract_response_text (some (Json.obj items)) output =
              Except.ok (Json.str (strFallback (Json.obj items))) := by
            simp only [extract_response_text, hp, hq, hn]
          refine ⟨by rw [he]; rfl, fun h => Option.noConfusion h, ?_⟩
          intro v hv
          rw [he] at hv
          simp only [Except.ok.injEq] at hv
          subst hv
          exact Or.inl rfl
    | str s =>
      refine ⟨rfl, fun h => Option.noConfusion h, ?_⟩
      intro v hv
      have hv₁ : Except.ok (Json.str s) = Except.ok v := hv
      simp only [Except.ok.injEq] at hv₁
      subst hv₁
      exact Or.inl rfl
    | null =>
      refine ⟨rfl, fun h => Option.noConfusion h, ?_⟩
      intro v hv
      have hv₁ : Except.ok (Json.str (strFallback Json.null)) = Except.ok v := hv
      simp only [Except.ok.injEq] at hv₁
      subst hv₁
      exact Or.inl rfl
    | bool b =>
      refine ⟨rfl, fun h => Option.noConfusion h, ?_⟩
      intro v hv
      have hv₁ : Except.ok (Json.str (strFallback (Json.bool b))) = Except.ok v := hv
      simp only [Except.ok.injEq] at hv₁
      subst hv₁
      exact Or.inl rfl
    | num n =>
      refine ⟨rfl, fun h => Option.noConfusion h, ?_⟩
      intro v hv
      have hv₁ : Except.ok (Json.str (strFallback (Json.num n))) = Except.ok v := hv
      simp only [Except.ok.injEq] at hv₁
      subst hv₁
      exact Or.inl rfl
    | arr l =>
      refine ⟨rfl, fun h => Option.noConfusion h, ?_⟩
      intro v hv
      have hv₁ : Except.ok (Json.str (strFallback (Json.arr l))) = Except.ok v := hv
      simp only [Except.ok.injEq] at hv₁
      subst hv₁
      exact Or.inl rfl

/-- Witness for C4 on non-JSON input with no quoted-text pattern: the raw
input comes back unmodified. -/
theorem c4_total_cascade_witness :
    extract_response_text none "no pattern here" = Except.ok (Json.str "no pattern here") :=
  (c4_total_cascade none "no pattern here").2.1 rfl rfl

/-- C6 as amended: a missing body, a falsy body, or a mapping lacking `text`
gets the 400 missing-text response with no process spawned; any non-mapping
body also spawns no process (though a non-falsy non-container body yields the
500 from the raised `TypeError` rather than the 400). -/
theorem c6_missing_text (data : Option Json) (run : RunOutcome) (ld : Option Json) :
    ((data = none ∨ (∃ d, data = some d ∧ pyFalsy d = true) ∨
        (∃ items, data = some (Json.obj items) ∧ lookupD items "text" = none)) →
      process_conversation data run ld = (HandlerResponse.missingText, false)) ∧
    (∀ d, data = some d → (∀ items, d ≠ Json.obj items) →
      (process_conversation data run ld).2 = false) := by
  constructor
  · rintro (rfl | ⟨d, rfl, hf⟩ | ⟨items, rfl, hl⟩)
    · rfl
    · simp [process_conversation, hf]
    · by_cases hf : pyFalsy (Json.obj items) = true
      · simp [process_conversation, hf]
      · simp [process_conversation, hf, pyContainsText, hl]
  · rintro d rfl hno
    cases d with
    | obj items => exact absurd rfl (hno items)
    | null => rfl
    | bool b =>
      cases b <;> simp [process_conversation, pyFalsy, pyContainsText]
    | num n =>
      by_cases h : pyFalsy (Json.num n) = true <;>
        simp [process_conversation, h, pyContainsText]
    | str s =>
      by_cases h : pyFalsy (Json.str s) = true
      · simp [process_conversation, h]
      · cases hs : hasSub ['t', 'e', 'x', 't'] s.data <;>
          simp [process_conversation, h, pyContainsText, hs, pyIndexText]
    | arr l =>
      by_cases h : pyFalsy (Json.arr l) = true
      · simp [process_conversation, h]
      · cases hs : l.any (fun x => isStrB x && pyStr x == "text") <;>
          simp [process_conversation, h, pyContainsText, hs, pyIndexText]

/-- Witness for C6: an absent body is rejected with the 400 and no spawn, and
an integer body spawns nothing either. -/
theorem c6_missing_text_witness :
    process_conversation none RunOutcome.timedOut none =
        (HandlerResponse.missingText, false) ∧
    (process_conversation (some (Json.num 5)) RunOutcome.timedOut none).2 = false :=
  ⟨(c6_missing_text none RunOutcome.timedOut none).1 (Or.inl rfl),
   (c6_missing_text (some (Json.num 5)) RunOutcome.timedOut none).2 (Json.num 5) rfl
     (fun _ h => Json.noConfusion h)⟩

/-- C7 as amended: a truthy mapping body whose `text` key holds a string — the
empty string included — always proceeds to the agent invocation; emptiness of
the text is never checked. -/
theorem c7_empty_text_proceeds (items : List (String × Json)) (t : String)
    (run : RunOutcome) (ld : Option Json)
    (h₁ : pyFalsy (Json.obj items) = false)
    (h₂ : lookupD items "text" = some (Json.str t)) :
    (process_conversation (some (Json.obj items)) run ld).2 = true := by
  have hc : pyContainsText (Json.obj items) = Except.ok true := by
    simp [pyContainsText, h₂]
  have hi : pyIndexText (Json.obj items) = Except.ok (Json.str t) := by
    simp [pyIndexText, h₂]
  simp only [process_conversation, h₁, Bool.false_eq_true, if_false, hc, hi]
  cases run with
  | timedOut => rfl
  | completed r =>
    by_cases h : r.returncode = 0
    · simp only [h, if_true]
      cases hx : extract_response_text ld (pyStrip r.stdout) with
      | error e => rfl
      | ok v => cases v <;> rfl
    · simp [h]

/-- Witness for C7 at the empty-string text field: the process is spawned. -/
theorem c7_empty_text_proceeds_witness :
    (process_conversation (some (Json.obj [("text", Json.str "")]))
        RunOutcome.timedOut none).2 = true :=
  c7_empty_text_proceeds _ "" RunOutcome.timedOut none (by decide) rfl

/-- Auxiliary: after erasing key `k`, looking up `k` fails. -/
theorem lookupD_eraseKey_self (items : List (String × Json)) (k : String) :
    lookupD (eraseKey items k) k = none := by
  induction items with
  | nil => rfl
  | cons kv rest ih =>
    obtain ⟨k₂, v⟩ := kv
    by_cases h : k₂ = k
    · simpa [eraseKey, h] using ih
    · simpa [eraseKey, h, lookupD] using ih

/-- Auxiliary: erasing key `k` does not change lookups of other keys. -/
theorem lookupD_eraseKey (items : List (String × Json)) (k k₁ : String) (hne : k₁ ≠ k) :
    lookupD (eraseKey items k) k₁ = lookupD items k₁ := by
  induction items with
  | nil => rfl
  | cons kv rest ih =>
    obtain ⟨k₂, v⟩ := kv
    by_cases h : k₂ = k
    · have h₂ : k₂ ≠ k₁ := fun hh => hne (hh ▸ h)
      simpa [eraseKey, h, lookupD, h₂, Ne.symm hne] using ih
    · by_cases h₁ : k₂ = k₁
      · simp [eraseKey, h, lookupD, h₁, hne]
      · simpa [eraseKey, h, lookupD, h₁] using ih

/-- Auxiliary: the key-priority walk ignores an erased `payloads` binding,
since `payloads` is not among the keys it consults. -/
theorem priorityRuleAux_eraseKey (items : List (String × Json)) (ks : List String)
    (hks : ∀ k₁ ∈ ks, k₁ ≠ "payloads") :
    priorityRuleAux (eraseKey items "payloads") ks = priorityRuleAux items ks := by
  induction ks with
  | nil => rfl
  | cons k ks ih =>
    have hk : k ≠ "payloads" := hks k (List.mem_cons_self _ _)
    simp only [priorityRuleAux, lookupD_eraseKey items "payloads" k hk]
    cases lookupD items k with
    | some v => rfl
    | none => exact ih (fun k₁ hk₁ => hks k₁ (List.mem_cons_of_mem _ hk₁))

/-- C10 as amended: when `payloads` is present but unusable (not a list, an
empty list, or a first element without a `text` field) and some priority key
is present, extraction neither fails nor uses `payloads`: it returns the
key-priority result, exactly as if `payloads` were absent.  (When no priority
key is present the stringify-fallback does still include the `payloads` entry
in the stringified mapping, so full equivalence with absence fails there.) -/
theorem c10_unusable_payloads (items : List (String × Json)) (v : Json) (output : String)
    (s : String)
    (_hpv : lookupD items "payloads" = some v)
    (hunusable : payloadsRule items = none)
    (hkey : priorityRule items = some s) :
    extract_response_text (some (Json.obj items)) output =
        extract_response_text (some (Json.obj (eraseKey items "payloads"))) output ∧
    extract_response_text (some (Json.obj items)) output = Except.ok (Json.str s) := by
  have hpe : payloadsRule (eraseKey items "payloads") = none := by
    unfold payloadsRule
    rw [lookupD_eraseKey_self]
  have hke : priorityRule (eraseKey items "payloads") = some s := by
    unfold priorityRule at hkey ⊢
    rw [priorityRuleAux_eraseKey items priorityKeys (by decide)]
    exact hkey
  constructor
  · simp [extract_response_text, hunusable, hkey, hpe, hke]
  · simp [extract_response_text, hunusable, hkey]

/-- Witness for C10: `payloads` bound to the number `3` is unusable; the
`text` key is used instead, as it would be with `payloads` erased. -/
theorem c10_unusable_payloads_witness :
    extract_response_text
        (some (Json.obj [("payloads", Json.num 3), ("text", Json.str "hi")])) "out" =
      extract_response_text
        (some (Json.obj (eraseKey [("payloads", Json.num 3), ("text", Json.str "hi")]
          "payloads"))) "out" ∧
    extract_response_text
        (some (Json.obj [("payloads", Json.num 3), ("text", Json.str "hi")])) "out" =
      Except.ok (Json.str "hi") :=
  c10_unusable_payloads _ (Json.num 3) "out" "hi" rfl rfl rfl

/-- C9: the synthesis client copies to the destination only when a source
audio path is non-empty and exists; and whenever the remote result's first
component is the empty path or a non-existent file, the client exits 1,
performs no copy, and prints the status string in the diagnostic message. -/
theorem c9_no_copy_without_audio :
    (∀ (w : TtsWorld) (src dst : String), (src, dst) ∈ (moss_tts_main w).copies →
      src ≠ "" ∧ w.fileExists src = true) ∧
    (∀ (w : TtsWorld) (audio : String) (restR : List String),
      3 ≤ w.argv.length →
      pyStrip (w.mossUrlEnv.getD "") ≠ "" →
      w.gradioInstalled = true →
      w.predict = Except.ok (audio :: restR) →
      (audio = "" ∨ w.fileExists audio = false) →
      (moss_tts_main w).exitCode = 1 ∧ (moss_tts_main w).copies = [] ∧
      ("ERROR: MOSS TTS produced no audio. Status: " ++ restR.headD "") ∈
        (moss_tts_main w).stderrLines) := by
  constructor
  · intro w src dst hmem
    simp only [moss_tts_main] at hmem
    split at hmem
    · simp at hmem
    · split at hmem
      · simp at hmem
      · split at hmem
        · simp at hmem
        · split at hmem
          · simp at hmem
          · split at hmem
            · simp at hmem
            · rename_i heq
              split at hmem
              · simp at hmem
              · rename_i hcond
                simp only [List.mem_singleton, Prod.mk.injEq] at hmem
                obtain ⟨rfl, rfl⟩ := hmem
                simp only [Bool.or_eq_true, beq_iff_eq, Bool.not_eq_true',
                  not_or] at hcond
                refine ⟨hcond.1, ?_⟩
                cases hf : w.fileExists src with
                | false => exact absurd hf hcond.2
                | true => rfl
  · intro w audio restR h₁ h₂ h₃ h₄ h₅
    have hlt : ¬ w.argv.length < 3 := by omega
    have hc : (audio == "" || !w.fileExists audio) = true := by
      rcases h₅ with h | h
      · simp [h]
      · simp [h]
    unfold moss_tts_main
    rw [if_neg hlt, if_neg h₂, h₃]
    simp only [Bool.not_true, Bool.false_eq_true, if_false, h₄, hc, if_true]
    refine ⟨?_, ?_, ?_⟩ <;> simp

/-- Witness for C9 at a concrete world whose remote result has an empty audio
path: exit 1, no copy, status surfaced on stderr. -/
theorem c9_no_copy_without_audio_witness :
    (moss_tts_main ⟨["moss-tts.py", "hi", "/tmp/out.wav"], some "http://x", true,
        Except.ok ["", "failed"], fun _ => false⟩).exitCode = 1 ∧
    (moss_tts_main ⟨["moss-tts.py", "hi", "/tmp/out.wav"], some "http://x", true,
        Except.ok ["", "failed"], fun _ => false⟩).copies = [] ∧
    ("ERROR: MOSS TTS produced no audio. Status: " ++ ["failed"].headD "") ∈
      (moss_tts_main ⟨["moss-tts.py", "hi", "/tmp/out.wav"], some "http://x", true,
        Except.ok ["", "failed"], fun _ => false⟩).stderrLines :=
  c9_no_copy_without_audio.2 _ "" ["failed"] (by decide) (by decide) rfl rfl (Or.inl rfl)

/-- One-step unfolding of `hasSub` on a cons cell. -/
theorem hasSub_cons (pat : List Char) (c : Char) (l : List Char) :
    hasSub pat (c :: l) = (isPre pat (c :: l) || hasSub pat l) := rfl

/-- One-step unfolding of `isPre` for a two-character pattern. -/
theorem isPre_two (a b c : Char) (l : List Char) :
    isPre [a, b] (c :: l) = ((a == c) && isPre [b] l) := rfl

/-- Auxiliary for C5: removing `**` left to right leaves no `**` occurrence
in the result (induction bounded by the input length). -/
theorem star_replace_clean : ∀ (n : Nat) (s : List Char), s.length ≤ n →
    hasSub ['*', '*'] (pyReplace2 '*' '*' [] s) = false := by
  intro n
  induction n with
  | zero =>
    intro s hs
    have hnil : s = [] := List.length_eq_zero.mp (Nat.le_zero.mp hs)
    subst hnil
    rfl
  | succ n ih =>
    intro s hs
    cases s with
    | nil => rfl
    | cons c rest₀ =>
      cases rest₀ with
      | nil => simp [pyReplace2, hasSub, isPre]
      | cons d rest =>
        simp only [List.length_cons] at hs
        by_cases hcd : c = '*' ∧ d = '*'
        · simp only [pyReplace2, if_pos hcd, List.nil_append]
          exact ih rest (by omega)
        · simp only [pyReplace2, if_neg hcd]
          have hr : hasSub ['*', '*'] (pyReplace2 '*' '*' [] (d :: rest)) = false :=
            ih (d :: rest) (by simp; omega)
          rw [hasSub_cons, hr, Bool.or_false, isPre_two]
          by_cases hc : c = '*'
          · subst hc
            have hd : d ≠ '*' := fun hdd => hcd ⟨rfl, hdd⟩
            have hdb : ('*' == d) = false := beq_eq_false_iff_ne.mpr (Ne.symm hd)
            cases rest with
            | nil => simp [pyReplace2, isPre, hdb]
            | cons e rest₂ =>
              by_cases hde : d = '*' ∧ e = '*'
              · exact absurd hde.1 hd
              · simp only [pyReplace2, if_neg hde]
                simp [isPre, hdb]
          · have hcb : ('*' == c) = false := beq_eq_false_iff_ne.mpr (Ne.symm hc)
            simp [hcb]

/-- Auxiliary for C5: the backslash-`n` replacement cannot create a `**`
occurrence when its input has none. -/
theorem star_clean_slashn : ∀ (n : Nat) (s : List Char), s.length ≤ n →
    hasSub ['*', '*'] s = false →
    hasSub ['*', '*'] (pyReplace2 '\\' 'n' ['\n'] s) = false := by
  intro n
  induction n with
  | zero =>
    intro s hs _
    have hnil : s = [] := List.length_eq_zero.mp (Nat.le_zero.mp hs)
    subst hnil
    rfl
  | succ n ih =>
    intro s hs hstar
    cases s with
    | nil => rfl
    | cons c rest₀ =>
      cases rest₀ with
      | nil => simpa [pyReplace2] using hstar
      | cons d rest =>
        simp only [List.length_cons] at hs
        rw [hasSub_cons, hasSub_cons, Bool.or_eq_false_iff, Bool.or_eq_false_iff] at hstar
        obtain ⟨hpre₁, hpre₂, hrest⟩ := hstar
        by_cases hcd : c = '\\' ∧ d = 'n'
        · simp only [pyReplace2, if_pos hcd, List.cons_append, List.nil_append]
          rw [hasSub_cons]
          have hnl : isPre ['*', '*'] ('\n' :: pyReplace2 '\\' 'n' ['\n'] rest) = false := rfl
          rw [hnl, Bool.false_or]
          exact ih rest (by omega) hrest
        · simp only [pyReplace2, if_neg hcd]
          have hr : hasSub ['*', '*'] (pyReplace2 '\\' 'n' ['\n'] (d :: rest)) = false := by
            refine ih (d :: rest) (by simp; omega) ?_
            rw [hasSub_cons, hpre₂, hrest]
            rfl
          rw [hasSub_cons, hr, Bool.or_false, isPre_two]
          by_cases hc : c = '*'
          · subst hc
            have hd : d ≠ '*' := by
              intro hdd
              subst hdd
              rw [isPre_two] at hpre₁
              simp [isPre] at hpre₁
            have hdb : ('*' == d) = false := beq_eq_false_iff_ne.mpr (Ne.symm hd)
            cases rest with
            | nil => simp [pyReplace2, isPre, hdb]
            | cons e rest₂ =>
              by_cases hde : d = '\\' ∧ e = 'n'
              · simp only [pyReplace2, if_pos hde, List.cons_append, List.nil_append]
                simp [isPre]
              · simp only [pyReplace2, if_neg hde]
                simp [isPre, hdb]
          · have hcb : ('*' == c) = false := beq_eq_false_iff_ne.mpr (Ne.symm hc)
            simp [hcb]

/-- Auxiliary for C5: after the backslash-`n` replacement, no literal
backslash-`n` pair remains. -/
theorem slashn_replace_clean : ∀ (n : Nat) (s : List Char), s.length ≤ n →
    hasSub ['\\', 'n'] (pyReplace2 '\\' 'n' ['\n'] s) = false := by
  intro n
  induction n with
  | zero =>
    intro s hs
    have hnil : s = [] := List.length_eq_zero.mp (Nat.le_zero.mp hs)
    subst hnil
    rfl
  | succ n ih =>
    intro s hs
    cases s with
    | nil => rfl
    | cons c rest₀ =>
      cases rest₀ with
      | nil => simp [pyReplace2, hasSub, isPre]
      | cons d rest =>
        simp only [List.length_cons] at hs
        by_cases hcd : c = '\\' ∧ d = 'n'
        · simp only [pyReplace2, if_pos hcd, List.cons_append, List.nil_append]
          rw [hasSub_cons]
          have hnl : isPre ['\\', 'n'] ('\n' :: pyReplace2 '\\' 'n' ['\n'] rest) = false := rfl
          rw [hnl, Bool.false_or]
          exact ih rest (by omega)
        · simp only [pyReplace2, if_neg hcd]
          have hr : hasSub ['\\', 'n'] (pyReplace2 '\\' 'n' ['\n'] (d :: rest)) = false :=
            ih (d :: rest) (by simp; omega)
          rw [hasSub_cons, hr, Bool.or_false, isPre_two]
          by_cases hc : c = '\\'
          · subst hc
            have hd : d ≠ 'n' := fun hdd => hcd ⟨rfl, hdd⟩
            have hdb : ('n' == d) = false := beq_eq_false_iff_ne.mpr (Ne.symm hd)
            cases rest with
            | nil => simp [pyReplace2, isPre, hdb]
            | cons e rest₂ =>
              by_cases hde : d = '\\' ∧ e = 'n'
              · simp only [pyReplace2, if_pos hde, List.cons_append, List.nil_append]
                simp [isPre]
              · simp only [pyReplace2, if_neg hde]
                simp [isPre, hdb]
          · have hcb : ('\\' == c) = false := beq_eq_false_iff_ne.mpr (Ne.symm hc)
            simp [hcb]

/-- C5: the bridge's post-processing removes every `**` marker occurrence and
converts every literal backslash-`n` into a real newline — the final text
contains neither pattern — and on the extracted text `**bold** text\nline`
(with a literal backslash-`n`) the returned text is `bold text`, a real
newline, then `line`. -/
theorem c5_postprocess (s : String) :
    hasSub ['*', '*'] (postprocess s).toList = false ∧
    hasSub ['\\', 'n'] (postprocess s).toList = false ∧
    postprocess "**bold** text\\nline" = "bold text\nline" := by
  have h₀ : (postprocess s).toList =
      pyReplace2 '\\' 'n' ['\n'] (pyReplace2 '*' '*' [] s.toList) := rfl
  refine ⟨?_, ?_, rfl⟩
  · rw [h₀]
    exact star_clean_slashn _ _ le_rfl (star_replace_clean _ _ le_rfl)
  · rw [h₀]
    exact slashn_replace_clean _ _ le_rfl
